import Mathlib

/-!
Verification of the Hermes form-filling engine.

This file gives a shallow embedding of the pure decision logic of the
Hermes job-application form filler (field classification, value
resolution, custom-answer fuzzy matching, pending-question persistence,
EEO handling, and the dynamic-field reconciler) and proves properties of
that logic.  Python strings are modelled by Lean `String` restricted to
ASCII, Python `re.search` by an executable Brzozowski-derivative matcher
over the exact pattern syntax used by the source, stateful persistence by
explicit state passing, and page interactions (clicks, extraction) by
oracle parameters.
-/

namespace Hermes

/-! ## ASCII helpers mirroring Python `str` operations -/

/-- ASCII lowercase of one character, as Python `str.lower` does on ASCII text. -/
def lowerChar (c : Char) : Char :=
  if 'A' ≤ c && c ≤ 'Z' then Char.ofNat (c.toNat + 32) else c

/-- Python `s.lower()` on ASCII strings. -/
def pyLower (s : String) : String := String.mk (s.toList.map lowerChar)

/-- Python whitespace class (`\s` and `str.split`/`str.strip` default) on ASCII. -/
def isPySpace (c : Char) : Bool :=
  c == ' ' || c == '\t' || c == '\n' || c == '\r' || c == '\x0b' || c == '\x0c'

/-- ASCII digit test (`\d`, `str.isdigit`). -/
def isDigitCh (c : Char) : Bool := '0' ≤ c && c ≤ '9'

/-- Python `\w` word-character class on ASCII. -/
def isWordCh (c : Char) : Bool :=
  isDigitCh c || ('a' ≤ c && c ≤ 'z') || ('A' ≤ c && c ≤ 'Z') || c == '_'

/-- Does the second list start with the first? -/
def startsWithL : List Char → List Char → Bool
  | [], _ => true
  | _ :: _, [] => false
  | a :: as, b :: bs => a == b && startsWithL as bs

/-- Substring containment on character lists (Python `in` for strings). -/
def containsL (sub : List Char) : List Char → Bool
  | [] => startsWithL sub []
  | c :: cs => startsWithL sub (c :: cs) || containsL sub cs

/-- Python `sub in s` for strings. -/
def pyIn (sub s : String) : Bool := containsL sub.toList s.toList

/-- Python `s.startswith(pre)`. -/
def pyStartsWith (s pre : String) : Bool := startsWithL pre.toList s.toList

/-- Python `s.strip()` (default whitespace). -/
def pyStrip (s : String) : String :=
  String.mk (((s.toList.dropWhile isPySpace).reverse.dropWhile isPySpace).reverse)

/-- Split on whitespace runs, dropping empty parts, as Python `str.split()`. -/
def splitWsAux : List Char → List Char → List (List Char)
  | [], [] => []
  | [], acc => [acc.reverse]
  | c :: cs, acc =>
    if isPySpace c then
      if acc.isEmpty then splitWsAux cs [] else acc.reverse :: splitWsAux cs []
    else splitWsAux cs (c :: acc)

/-- Python `str.split()` with no argument. -/
def pySplitWs (s : String) : List String :=
  (splitWsAux s.toList []).map String.mk

/-- Python `" ".join(parts)`. -/
def joinSpace : List String → String
  | [] => ""
  | [w] => w
  | w :: ws => w ++ " " ++ joinSpace ws

/-! ## A Brzozowski-derivative regex matcher

This models Python `re.search` for exactly the pattern syntax that occurs
in the source's `FIELD_PATTERNS`: literals, escaped literals, the classes
`\s` `\d` `.`, the quantifiers `*` `?` `+` `{n}`, grouping with
alternation, and the anchors `^` (only at the start of a pattern) and `$`
(only at the end). -/

/-- Regular expressions over characters. -/
inductive RE : Type where
  | fail : RE
  | eps : RE
  | cpred : (Char → Bool) → RE
  | seq : RE → RE → RE
  | alt : RE → RE → RE
  | star : RE → RE

/-- Does the language of `r` contain the empty string? -/
def RE.nullable : RE → Bool
  | .fail => false
  | .eps => true
  | .cpred _ => false
  | .seq a b => a.nullable && b.nullable
  | .alt a b => a.nullable || b.nullable
  | .star _ => true

/-- Brzozowski derivative of `r` with respect to the character `c`. -/
def RE.deriv : RE → Char → RE
  | .fail, _ => .fail
  | .eps, _ => .fail
  | .cpred p, c => if p c then .eps else .fail
  | .seq a b, c =>
    if a.nullable then .alt (.seq (a.deriv c) b) (b.deriv c) else .seq (a.deriv c) b
  | .alt a b, c => .alt (a.deriv c) (b.deriv c)
  | .star a, c => .seq (a.deriv c) (.star a)

/-- Does `r` match the whole list? -/
def rmatchL (r : RE) : List Char → Bool
  | [] => r.nullable
  | c :: cs => rmatchL (r.deriv c) cs

/-- Does `r` match some (possibly empty) initial segment of the list? -/
def matchesInit (r : RE) : List Char → Bool
  | [] => r.nullable
  | c :: cs => r.nullable || matchesInit (r.deriv c) cs

/-- Does `r` match some suffix of the list in full (search anchored at the end)? -/
def endAnchoredSearch (r : RE) : List Char → Bool
  | [] => r.nullable
  | c :: cs => rmatchL r (c :: cs) || endAnchoredSearch r cs

/-- Does `r` match some substring of the list (unanchored search)? -/
def searchSomewhere (r : RE) : List Char → Bool
  | [] => matchesInit r []
  | c :: cs => matchesInit r (c :: cs) || searchSomewhere r cs

/-- A source regex: a body together with the `^` / `$` anchors, which in
the source only ever occur at the very start resp. end of a pattern. -/
structure Pat where
  anchorStart : Bool
  anchorEnd : Bool
  re : RE

/-- Python `re.search(p, s) is not None` for the supported syntax. -/
def reSearch (p : Pat) (s : String) : Bool :=
  match p.anchorStart, p.anchorEnd with
  | true, true => rmatchL p.re s.toList
  | true, false => matchesInit p.re s.toList
  | false, true => endAnchoredSearch p.re s.toList
  | false, false => searchSomewhere p.re s.toList

/-- Regex matching a single literal character. -/
def lit1 (c : Char) : RE := RE.cpred (fun x => x == c)

/-- Regex matching a literal character list. -/
def litL : List Char → RE
  | [] => RE.eps
  | c :: cs => RE.seq (lit1 c) (litL cs)

/-- Regex matching a literal string. -/
def lit (s : String) : RE := litL s.toList

/-- `r?` -/
def rOpt (r : RE) : RE := RE.alt RE.eps r

/-- `r+` -/
def rPlus (r : RE) : RE := RE.seq r (RE.star r)

/-- `\s*` -/
def wsZ : RE := RE.star (RE.cpred isPySpace)

/-- `\d` -/
def dgt : RE := RE.cpred isDigitCh

/-- `.*` (no DOTALL: `.` excludes the newline) -/
def anyZ : RE := RE.star (RE.cpred (fun c => !(c == '\n')))

/-- Sequential composition of a list of regexes. -/
def cat : List RE → RE
  | [] => RE.eps
  | [r] => r
  | r :: rs => RE.seq r (cat rs)

/-- Unanchored pattern. -/
def pU (r : RE) : Pat := ⟨false, false, r⟩

/-- Pattern anchored at the start (`^...`). -/
def pS (r : RE) : Pat := ⟨true, false, r⟩

/-- Pattern anchored at the end (`...$`). -/
def pE (r : RE) : Pat := ⟨false, true, r⟩

/-- Pattern anchored at both ends (`^...$`). -/
def pSE (r : RE) : Pat := ⟨true, true, r⟩

/-- `"a\s*b"` -/
def ws2 (a b : String) : RE := cat [lit a, wsZ, lit b]

/-- `"a\s*b\s*c"` -/
def ws3 (a b c : String) : RE := cat [lit a, wsZ, lit b, wsZ, lit c]

/-- `"a_?b"` -/
def uOpt (a b : String) : RE := cat [lit a, rOpt (lit ("_")), lit b]

/-- `"a.*b"` -/
def dotStar2 (a b : String) : RE := cat [lit a, anyZ, lit b]

/-! ## `field_mapping.py`: semantic field types and the pattern catalog -/

/-- Semantic field types for job applications (`FieldType` enum). -/
inductive FieldType : Type where
  | first_name | last_name | full_name | email | phone
  | linkedin | github | portfolio | website
  | address | city | state | zip_code | country | willing_to_relocate
  | authorized_to_work | require_sponsorship | visa_status
  | years_of_experience | current_company | current_title
  | highest_degree | field_of_study | university | graduation_year
  | resume | cover_letter
  | expected_salary | salary_range_min | salary_range_max
  | start_date | available_immediately
  | gender | ethnicity | race | hispanic_latino | veteran_status | disability_status
  | how_did_you_hear | referral | custom_question | unknown
deriving DecidableEq, Repr

/-- The `.value` string of each `FieldType` enum member. -/
def FieldType.value : FieldType → String
  | .first_name => "first_name"
  | .last_name => "last_name"
  | .full_name => "full_name"
  | .email => "email"
  | .phone => "phone"
  | .linkedin => "linkedin"
  | .github => "github"
  | .portfolio => "portfolio"
  | .website => "website"
  | .address => "address"
  | .city => "city"
  | .state => "state"
  | .zip_code => "zip_code"
  | .country => "country"
  | .willing_to_relocate => "willing_to_relocate"
  | .authorized_to_work => "authorized_to_work"
  | .require_sponsorship => "require_sponsorship"
  | .visa_status => "visa_status"
  | .years_of_experience => "years_of_experience"
  | .current_company => "current_company"
  | .current_title => "current_title"
  | .highest_degree => "highest_degree"
  | .field_of_study => "field_of_study"
  | .university => "university"
  | .graduation_year => "graduation_year"
  | .resume => "resume"
  | .cover_letter => "cover_letter"
  | .expected_salary => "expected_salary"
  | .salary_range_min => "salary_range_min"
  | .salary_range_max => "salary_range_max"
  | .start_date => "start_date"
  | .available_immediately => "available_immediately"
  | .gender => "gender"
  | .ethnicity => "ethnicity"
  | .race => "race"
  | .hispanic_latino => "hispanic_latino"
  | .veteran_status => "veteran_status"
  | .disability_status => "disability_status"
  | .how_did_you_hear => "how_did_you_hear"
  | .referral => "referral"
  | .custom_question => "custom_question"
  | .unknown => "unknown"

/-- `HIGH_RISK_FIELDS`: field types requiring human confirmation. -/
def HIGH_RISK_FIELDS : List FieldType :=
  [.authorized_to_work, .require_sponsorship, .visa_status,
   .gender, .ethnicity, .race, .hispanic_latino, .veteran_status, .disability_status,
   .expected_salary, .salary_range_min, .salary_range_max]

/-- `EEO_FIELD_TYPES`: EEO field types requiring special handling. -/
def EEO_FIELD_TYPES : List FieldType :=
  [.gender, .ethnicity, .race, .hispanic_latino, .veteran_status, .disability_status]

/-- `EEO_KEYWORDS`: keywords that indicate an EEO field. -/
def EEO_KEYWORDS : List String :=
  ["race", "ethnicity", "gender", "sex", "disability", "veteran",
   "eeo", "equal employment", "hispanic", "latino", "eeoc",
   "voluntary self-identification", "demographic"]

/-- `EEO_DECLINE_OPTIONS`: decline/skip options for EEO fields, in preference order. -/
def EEO_DECLINE_OPTIONS : List String :=
  ["i do not wish to disclose", "decline to answer", "prefer not to say",
   "decline to self-identify", "i don't wish to answer", "choose not to disclose",
   "decline", "prefer not to answer", "i choose not to disclose"]

/-- `is_eeo_field`: is the field type an EEO field type? -/
def is_eeo_field (ft : FieldType) : Bool := EEO_FIELD_TYPES.contains ft

/-- `is_eeo_keyword_in_text`: does the text contain an EEO-related keyword? -/
def is_eeo_keyword_in_text (text : String) : Bool :=
  EEO_KEYWORDS.any (fun kw => pyIn kw (pyLower text))

/-- `is_high_risk_field`. -/
def is_high_risk_field (ft : FieldType) : Bool := HIGH_RISK_FIELDS.contains ft

/-- `FieldPattern`: matching rules for one semantic field type. -/
structure FieldPattern where
  field_type : FieldType
  label_patterns : List Pat
  name_patterns : List Pat
  placeholder_patterns : List Pat

/-- `FIELD_PATTERNS`: the static catalog, in source order, each regex
translated into the `Pat` syntax tree. -/
def FIELD_PATTERNS : List FieldPattern :=
  [⟨.first_name,
    [pU (ws2 ("first") ("name")), pU (ws2 ("given") ("name")), pSE (lit ("name"))],
    [pU (uOpt ("first") ("name")), pU (lit ("fname")), pU (uOpt ("given") ("name"))],
    [pU (ws2 ("first") ("name")), pU (lit ("john"))]⟩,
   ⟨.last_name,
    [pU (ws2 ("last") ("name")), pU (ws2 ("family") ("name")), pU (lit ("surname"))],
    [pU (uOpt ("last") ("name")), pU (lit ("lname")), pU (lit ("surname")),
     pU (uOpt ("family") ("name"))],
    [pU (ws2 ("last") ("name")), pU (lit ("doe"))]⟩,
   ⟨.full_name,
    [pU (ws2 ("full") ("name")), pSE (lit ("name")), pU (ws2 ("your") ("name"))],
    [pU (uOpt ("full") ("name")), pSE (lit ("name"))],
    [pU (ws2 ("full") ("name")), pU (lit ("john doe"))]⟩,
   ⟨.email,
    [pU (cat [lit ("e"), rOpt (lit ("-")), lit ("mail")]), pU (ws2 ("email") ("address"))],
    [pU (cat [lit ("e"), rOpt (lit ("-")), lit ("mail")]), pU (uOpt ("email") ("address"))],
    [pU (cat [lit ("e"), rOpt (lit ("-")), lit ("mail")]), pU (lit ("@")),
     pU (lit ("example.com"))]⟩,
   ⟨.phone,
    [pU (lit ("phone")), pU (lit ("telephone")), pU (lit ("mobile")), pU (lit ("cell"))],
    [pU (lit ("phone")), pU (lit ("tel")), pU (lit ("mobile")), pU (lit ("cell"))],
    [pU (lit ("phone")), pU (cat [lit ("("), dgt, dgt, dgt, lit (")")]), pU (lit ("+1"))]⟩,
   ⟨.linkedin,
    [pU (lit ("linkedin")), pU (ws2 ("linked") ("in"))],
    [pU (lit ("linkedin"))],
    [pU (lit ("linkedin.com")), pU (lit ("linkedin"))]⟩,
   ⟨.github,
    [pU (lit ("github"))],
    [pU (lit ("github"))],
    [pU (lit ("github.com")), pU (lit ("github"))]⟩,
   ⟨.portfolio,
    [pU (lit ("portfolio")), pU (ws2 ("personal") ("website")), pU (lit ("website"))],
    [pU (lit ("portfolio")), pU (lit ("website")), pU (lit ("url"))],
    [pU (cat [lit ("http"), rOpt (lit ("s")), lit ("://")]), pU (lit (".com"))]⟩,
   ⟨.address,
    [pU (ws2 ("street") ("address")), pSE (lit ("address")), pU (ws2 ("address") ("line"))],
    [pU (lit ("address")), pU (lit ("street"))],
    [pU (lit ("street")), pU (lit ("address"))]⟩,
   ⟨.city,
    [pSE (lit ("city")), pU (dotStar2 ("location") ("city")), pU (dotStar2 ("city") ("location"))],
    [pSE (lit ("city")), pU (dotStar2 ("location") ("city"))],
    [pU (lit ("city")), pU (lit ("san francisco"))]⟩,
   ⟨.state,
    [pSE (lit ("state")), pU (lit ("province"))],
    [pSE (lit ("state")), pU (lit ("province"))],
    [pU (lit ("state")), pSE (lit ("ca")), pU (lit ("california"))]⟩,
   ⟨.zip_code,
    [pU (lit ("zip")), pU (ws2 ("postal") ("code"))],
    [pU (lit ("zip")), pU (lit ("postal"))],
    [pU (lit ("zip")), pU (cat [dgt, dgt, dgt, dgt, dgt])]⟩,
   ⟨.country,
    [pSE (lit ("country"))],
    [pSE (lit ("country"))],
    [pU (lit ("country")), pU (lit ("united states"))]⟩,
   ⟨.authorized_to_work,
    [pU (ws3 ("authorized") ("to") ("work")),
     pU (cat [lit ("legally"), wsZ, RE.alt (lit ("authorized")) (lit ("eligible"))])],
    [pU (lit ("authorized")), pU (lit ("work_auth"))],
    []⟩,
   ⟨.require_sponsorship,
    [pU (lit ("sponsorship")), pU (dotStar2 ("require") ("visa")),
     pU (dotStar2 ("need") ("sponsorship"))],
    [pU (lit ("sponsor")), pU (lit ("visa"))],
    []⟩,
   ⟨.visa_status,
    [pU (ws2 ("visa") ("status")), pU (ws2 ("immigration") ("status")),
     pU (ws2 ("work") ("status"))],
    [pU (lit ("visa")), pU (lit ("immigration"))],
    []⟩,
   ⟨.years_of_experience,
    [pU (cat [lit ("year"), rOpt (lit ("s")), wsZ, rOpt (lit ("of")), wsZ, lit ("experience")]),
     pU (cat [lit ("experience"), wsZ, lit ("(years)")])],
    [pU (lit ("experience")), pU (lit ("years"))],
    [pU (cat [rPlus dgt, wsZ, lit ("year"), rOpt (lit ("s"))])]⟩,
   ⟨.current_company,
    [pU (cat [lit ("current"), wsZ, RE.alt (lit ("company")) (lit ("employer"))]),
     pU (lit ("employer")), pS (ws2 ("company") ("name")), pE (lit ("company"))],
    [pU (lit ("company")), pU (lit ("employer")), pU (lit ("organization"))],
    [pU (lit ("company")), pU (lit ("employer"))]⟩,
   ⟨.current_title,
    [pU (cat [lit ("current"), wsZ,
              RE.alt (lit ("title")) (RE.alt (lit ("position")) (lit ("role")))]),
     pU (ws2 ("job") ("title")), pSE (cat [lit ("title"), rOpt (lit ("*"))]),
     pU (lit ("position"))],
    [pU (lit ("title")), pU (lit ("position")), pU (lit ("role")), pU (lit ("job_title"))],
    [pU (lit ("title")), pU (lit ("position"))]⟩,
   ⟨.highest_degree,
    [pU (cat [rOpt (cat [lit ("highest"), wsZ]), lit ("degree")]),
     pU (ws2 ("education") ("level")), pSE (cat [lit ("degree"), rOpt (lit ("*"))])],
    [pU (lit ("degree")), pU (lit ("education")), pU (lit ("edu_degree"))],
    [pU (lit ("degree")), pU (lit ("bachelor")), pU (lit ("master"))]⟩,
   ⟨.university,
    [pU (lit ("university")), pU (lit ("school")), pU (lit ("institution")),
     pU (lit ("college")), pSE (cat [lit ("school"), rOpt (lit ("*"))])],
    [pU (lit ("university")), pU (lit ("school")), pU (lit ("college")),
     pU (lit ("institution")), pU (lit ("edu_school"))],
    [pU (lit ("school")), pU (lit ("university"))]⟩,
   ⟨.resume,
    [pU (lit ("resume")), pU (lit ("cv")), pU (ws2 ("curriculum") ("vitae")),
     pSE (lit ("attach")), pU (dotStar2 ("attach") ("resume")),
     pU (dotStar2 ("upload") ("resume"))],
    [pU (lit ("resume")), pU (lit ("cv")), pU (lit ("data_compliance[resume")),
     pU (lit ("resume_file"))],
    []⟩,
   ⟨.cover_letter,
    [pU (ws2 ("cover") ("letter"))],
    [pU (lit ("cover")), pU (lit ("letter")), pU (lit ("cover_letter"))],
    []⟩,
   ⟨.expected_salary,
    [pU (cat [RE.alt (lit ("expected")) (lit ("desired")), wsZ, lit ("salary")]),
     pU (ws2 ("salary") ("expectation"))],
    [pU (lit ("salary"))],
    []⟩,
   ⟨.start_date,
    [pU (ws2 ("start") ("date")),
     pU (cat [RE.alt (lit ("available")) (lit ("availability")), wsZ, lit ("date")]),
     pU (dotStar2 ("when") ("start"))],
    [pU (lit ("start")), pU (lit ("available"))],
    []⟩,
   ⟨.gender,
    [pSE (cat [lit ("gender"), rOpt (lit (":"))]), pU (ws2 ("gender") ("identity")),
     pS (cat [lit ("gender"), wsZ, lit (":")])],
    [pU (lit ("gender"))],
    []⟩,
   ⟨.hispanic_latino,
    [pU (dotStar2 ("hispanic") ("latino")), pU (dotStar2 ("latino") ("hispanic")),
     pU (lit ("are you hispanic"))],
    [pU (lit ("hispanic")), pU (lit ("latino"))],
    []⟩,
   ⟨.race,
    [pSE (lit ("race")), pS (lit ("race:"))],
    [pSE (lit ("race"))],
    []⟩,
   ⟨.ethnicity,
    [pU (lit ("ethnicity")), pU (lit ("ethnic"))],
    [pU (lit ("ethnicity")), pU (lit ("ethnic"))],
    []⟩,
   ⟨.veteran_status,
    [pU (lit ("veteran")), pU (lit ("military"))],
    [pU (lit ("veteran")), pU (lit ("military"))],
    []⟩,
   ⟨.disability_status,
    [pU (lit ("disability")), pU (lit ("disabled"))],
    [pU (lit ("disability"))],
    []⟩,
   ⟨.how_did_you_hear,
    [pU (cat [lit ("how"), wsZ, lit ("did"), wsZ, lit ("you"), wsZ,
              RE.alt (lit ("hear")) (lit ("find"))]),
     pU (lit ("source")), pU (ws2 ("referral") ("source"))],
    [pU (lit ("source")), pU (lit ("hear")), pU (lit ("referral"))],
    []⟩]

/-! ## `FormFiller._match_field_type`: the classifier -/

/-- Does any label regex of the pattern match the (lowercased) label? -/
def labelAnyMatch (p : FieldPattern) (label : String) : Bool :=
  p.label_patterns.any (fun r => reSearch r (pyLower label))

/-- Does any name regex of the pattern match the (lowercased) name or id? -/
def nameAnyMatch (p : FieldPattern) (name id_attr : String) : Bool :=
  p.name_patterns.any (fun r => reSearch r (pyLower name) || reSearch r (pyLower id_attr))

/-- Does any placeholder regex of the pattern match the (lowercased) placeholder? -/
def placeholderAnyMatch (p : FieldPattern) (placeholder : String) : Bool :=
  p.placeholder_patterns.any (fun r => reSearch r (pyLower placeholder))

/-- The score one pattern reaches in `_match_field_type`: label match caps it
at 0.9, name/id match at 0.8, placeholder match at 0.7. -/
def patternScore (p : FieldPattern) (label name id_attr placeholder : String) : ℚ :=
  let s0 : ℚ := 0
  let s1 := if labelAnyMatch p label then max s0 (mkRat 9 10) else s0
  let s2 := if nameAnyMatch p name id_attr then max s1 (mkRat 8 10) else s1
  if placeholderAnyMatch p placeholder then max s2 (mkRat 7 10) else s2

/-- A pattern matches nothing at all on the given inputs. -/
def patternMatchesNothing (p : FieldPattern) (label name id_attr placeholder : String) : Bool :=
  !labelAnyMatch p label && !nameAnyMatch p name id_attr && !placeholderAnyMatch p placeholder

/-- One step of the `_match_field_type` fold: replace the best match when
this pattern scores strictly higher. -/
def matchStep (label name id_attr placeholder : String) (best : FieldType × ℚ)
    (p : FieldPattern) : FieldType × ℚ :=
  if best.2 < patternScore p label name id_attr placeholder then
    (p.field_type, patternScore p label name id_attr placeholder)
  else best

/-- `FormFiller._match_field_type`: fold over the catalog keeping the
strictly-best-scoring pattern; the `aria_label` argument is accepted but,
as in the source, never used by the scoring. -/
def _match_field_type (label name id_attr placeholder _aria_label : String) :
    FieldType × ℚ :=
  FIELD_PATTERNS.foldl (matchStep label name id_attr placeholder)
    (FieldType.unknown, 0)

/-! ## `config.py`: profile and the custom-answer system -/

/-- `Personal` profile section. -/
structure Personal where
  first_name : String := ""
  last_name : String := ""
  full_name : String := ""
  email : String := ""
  phone : String := ""
  linkedin : String := ""
  github : String := ""
  portfolio : String := ""
deriving DecidableEq

/-- `Location` profile section. -/
structure LocationSection where
  address : String := ""
  city : String := ""
  state : String := ""
  zip_code : String := ""
  country : String := ""
  willing_to_relocate : Bool := true
deriving DecidableEq

/-- `WorkAuthorization` profile section. -/
structure WorkAuthorization where
  authorized_to_work : Bool := true
  require_sponsorship : Bool := false
  visa_status : String := ""
deriving DecidableEq

/-- `Experience` profile section. -/
structure Experience where
  years_of_experience : Nat := 0
  current_company : String := ""
  current_title : String := ""
deriving DecidableEq

/-- `Education` profile section. -/
structure Education where
  highest_degree : String := ""
  field_of_study : String := ""
  university : String := ""
  graduation_year : Nat := 0
deriving DecidableEq

/-- `Resume` profile section.  `Resume.get_absolute_path` probes the
filesystem (explicit path, then conventional filenames in the profile
directory); that externally-determined outcome is modelled by the
`resolved_path` field: `none` when no file is found. -/
structure Resume where
  path : String := ""
  resolved_path : Option String := none
deriving DecidableEq

/-- `Salary` profile section. -/
structure Salary where
  expected_salary : String := ""
  salary_range_min : String := ""
  salary_range_max : String := ""
  currency : String := "USD"
deriving DecidableEq

/-- `Availability` profile section. -/
structure Availability where
  start_date : String := ""
  available_immediately : Bool := false
deriving DecidableEq

/-- `Diversity` profile section. -/
structure Diversity where
  gender : String := ""
  race : String := ""
  ethnicity : String := ""
  hispanic_latino : String := ""
  veteran_status : String := ""
  disability_status : String := ""
deriving DecidableEq

/-- `Profile`: the complete read-only applicant record; `default_answers`
is the YAML dict, modelled as an association list. -/
structure Profile where
  personal : Personal := {}
  location : LocationSection := {}
  work_authorization : WorkAuthorization := {}
  experience : Experience := {}
  education : Education := {}
  resume : Resume := {}
  salary : Salary := {}
  availability : Availability := {}
  diversity : Diversity := {}
  default_answers : List (String × String) := []
deriving DecidableEq

/-- Python `dict.get(key, "")` on an association list. -/
def dictGet (d : List (String × String)) (key : String) : String :=
  ((d.find? (fun kv => kv.1 == key)).map (fun kv => kv.2)).getD ""

/-- `Profile.get_field_value`: the semantic-type → value dictionary.  Keys
absent from the source dictionary (`website`, `resume`, `cover_letter`,
`how_did_you_hear`, `referral`, `custom_question`, `unknown`) yield `none`. -/
def Profile.get_field_value (p : Profile) (ft : FieldType) : Option String :=
  match ft with
  | .first_name => some p.personal.first_name
  | .last_name => some p.personal.last_name
  | .full_name => some p.personal.full_name
  | .email => some p.personal.email
  | .phone => some p.personal.phone
  | .linkedin => some p.personal.linkedin
  | .github => some p.personal.github
  | .portfolio => some p.personal.portfolio
  | .address => some p.location.address
  | .city => some p.location.city
  | .state => some p.location.state
  | .zip_code => some p.location.zip_code
  | .country => some p.location.country
  | .willing_to_relocate => some (if p.location.willing_to_relocate then "Yes" else "No")
  | .authorized_to_work =>
    some (if p.work_authorization.authorized_to_work then "Yes" else "No")
  | .require_sponsorship =>
    some (if p.work_authorization.require_sponsorship then "Yes" else "No")
  | .visa_status => some p.work_authorization.visa_status
  | .years_of_experience => some (toString p.experience.years_of_experience)
  | .current_company => some p.experience.current_company
  | .current_title => some p.experience.current_title
  | .highest_degree => some p.education.highest_degree
  | .field_of_study => some p.education.field_of_study
  | .university => some p.education.university
  | .graduation_year => some (toString p.education.graduation_year)
  | .expected_salary => some p.salary.expected_salary
  | .salary_range_min => some p.salary.salary_range_min
  | .salary_range_max => some p.salary.salary_range_max
  | .start_date => some p.availability.start_date
  | .available_immediately =>
    some (if p.availability.available_immediately then "Yes" else "No")
  | .gender => some p.diversity.gender
  | .race => some p.diversity.race
  | .ethnicity =>
    some (if p.diversity.ethnicity == "" then p.diversity.race else p.diversity.ethnicity)
  | .hispanic_latino => some p.diversity.hispanic_latino
  | .veteran_status => some p.diversity.veteran_status
  | .disability_status => some p.diversity.disability_status
  | .website | .resume | .cover_letter | .how_did_you_hear
  | .referral | .custom_question | .unknown => none

/-- Python truthiness of an `Optional[str]`: `None` and `""` are falsy. -/
def pyTruthy (v : Option String) : Bool :=
  match v with
  | none => false
  | some s => s != ""

/-- `CustomAnswer`: a saved question-answer pair. -/
structure CustomAnswer where
  question : String
  answer : String
  options : List String := []
  keywords : List String := []
deriving DecidableEq

/-- `PendingQuestion`: an unanswered question waiting for the user.
`options = none` models the `options` key being absent from the saved
YAML mapping (it is only written when non-empty). -/
structure PendingQuestion where
  question : String
  options : Option (List String) := none
  answer : String := ""
  encountered_at : String := ""
  job : String := ""
deriving DecidableEq

/-- The persisted `custom_answers` section of a profile.  File loading and
saving are modelled by passing this state explicitly; a save is the
returned state. -/
structure CustomStore where
  answered : List CustomAnswer := []
  pending : List PendingQuestion := []
deriving DecidableEq

/-- `_normalize_question`: lowercase, strip everything outside `\w\s`,
collapse whitespace. -/
def _normalize_question (text : String) : String :=
  let t := pyLower text
  let kept := String.mk (t.toList.filter (fun c => isWordCh c || isPySpace c))
  joinSpace (pySplitWs kept)

/-- The `important_patterns` keyword list of `_extract_keywords`. -/
def importantPatterns : List String :=
  ["non-compete", "noncompete", "non-solicitation",
   "worked for", "worked at", "ever worked", "previously worked",
   "currently work", "employed by", "employment",
   "authorized", "sponsorship", "visa",
   "relocate", "remote", "hybrid", "onsite",
   "salary", "compensation", "pay",
   "start date", "available", "notice period",
   "clearance", "security", "background check",
   "disability", "veteran", "gender", "race", "ethnicity",
   "referred", "hear about", "how did you find",
   "years of experience", "experience with"]

/-- `_extract_keywords`: the important patterns contained in the lowercased text. -/
def _extract_keywords (text : String) : List String :=
  importantPatterns.filter (fun pat => pyIn pat (pyLower text))

/-- Distinct elements of a list (for Python `set(...)` cardinalities). -/
def dedupL : List String → List String
  | [] => []
  | x :: xs => let r := dedupL xs; if r.contains x then r else x :: r

/-- `len(set(qk) & set(ck))`. -/
def kwOverlapCount (qk ck : List String) : Nat :=
  ((dedupL qk).filter (fun k => ck.contains k)).length

/-- Is the stored answer compatible with the currently offered options? -/
def optionCompatible (answer : String) (options : List String) : Bool :=
  let al := pyLower answer
  options.any (fun opt => pyIn al (pyLower opt) || pyStartsWith (pyLower opt) al)

/-- The keyword set used for a stored answer: its own keywords, else those
extracted from its question. -/
def caKeywords (ca : CustomAnswer) : List String :=
  if ca.keywords.isEmpty then _extract_keywords ca.question else ca.keywords

/-- The score `find_custom_answer` accumulates for one candidate:
substring containment (+50), 20 per shared keyword, option compatibility
(+10 / −20, only when options and an answer are present). -/
def caScore (question : String) (options : List String) (ca : CustomAnswer) : Int :=
  let qn := _normalize_question question
  let can := _normalize_question ca.question
  let s1 : Int := if pyIn can qn || pyIn qn can then 50 else 0
  let qk := _extract_keywords question
  let ck := caKeywords ca
  let ov := kwOverlapCount qk ck
  let s2 : Int := s1 + (if !qk.isEmpty && !ck.isEmpty && ov != 0 then (ov : Int) * 20 else 0)
  s2 + (if !options.isEmpty && ca.answer != "" then
          (if optionCompatible ca.answer options then 10 else -20)
        else 0)

/-- The candidate loop of `find_custom_answer`: exact normalized equality
returns immediately; otherwise the strictly-best-scoring candidate is
tracked and returned at the end when its score reaches 30. -/
def fcaGo (question : String) (options : List String) :
    List CustomAnswer → Option String × Int → Option String
  | [], best => if 30 ≤ best.2 then best.1 else none
  | ca :: rest, best =>
    if _normalize_question ca.question = _normalize_question question then some ca.answer
    else
      let score := caScore question options ca
      fcaGo question options rest (if best.2 < score then (some ca.answer, score) else best)

/-- `find_custom_answer`. -/
def find_custom_answer (question : String) (options : List String)
    (answered : List CustomAnswer) : Option String :=
  if answered.isEmpty then none else fcaGo question options answered (none, 0)

/-- Specification-side best score: the maximum candidate score (at least 0). -/
def specBestScore (question : String) (options : List String)
    (answered : List CustomAnswer) : Int :=
  answered.foldl (fun m ca => max m (caScore question options ca)) 0

/-- Specification-side matcher, phrased from the spec: exact normalized
equality short-circuits to that stored answer; otherwise the (first)
best-scoring answer is returned exactly when the best score is ≥ 30. -/
def specFuzzyMatch (question : String) (options : List String)
    (answered : List CustomAnswer) : Option String :=
  match answered.find?
      (fun ca => _normalize_question ca.question == _normalize_question question) with
  | some ca => some ca.answer
  | none =>
    if 30 ≤ specBestScore question options answered then
      (answered.find?
        (fun ca => caScore question options ca == specBestScore question options answered)).map
        (fun ca => ca.answer)
    else none

/-- `save_pending_question`: skip (returning `False`) when the normalized
question already occurs among answered or pending questions; otherwise
append one pending entry with an empty answer, the timestamp `now` and the
job context, including the options only when non-empty.  The filesystem
round-trip of the source is modelled by the explicit store state, assuming
the profile file exists and loads. -/
def save_pending_question (question : String) (options : List String)
    (job_info now : String) (store : CustomStore) : Bool × CustomStore :=
  let qn := _normalize_question question
  if store.answered.any (fun item => _normalize_question item.question == qn) then
    (false, store)
  else if store.pending.any (fun item => _normalize_question item.question == qn) then
    (false, store)
  else
    let entry : PendingQuestion :=
      { question := question
        options := if options.isEmpty then none else some options
        answer := ""
        encountered_at := now
        job := job_info }
    (true, { store with pending := store.pending ++ [entry] })

/-! ## `form_filler.py`: fields, value resolution and fill orchestration

Page handles (`ElementHandle`, frames) are not modelled; a `FormField`
carries the extracted data the decision logic reads.  Page interactions
(clicks, per-pass extraction) appear as oracle parameters, and clicks on
located option elements are assumed to succeed (the source's normal path). -/

/-- `FormField`: a detected form field (without its live element handle). -/
structure FormField where
  field_type : FieldType
  label : String
  name : String := ""
  input_type : String := "text"
  options : List String := []
  current_value : String := ""
  is_required : Bool := false
  confidence : ℚ := 0
  selector : String := ""
deriving DecidableEq

/-- `FilledField`: the result of one fill attempt. -/
structure FilledField where
  field : FormField
  filled_value : String
  success : Bool
  is_high_risk : Bool
deriving DecidableEq

/-- The `standard_fields` set of `_save_unanswered_question`: profile-backed
types whose missing data is a profile gap, never saved as pending. -/
def standardProfileFields : List FieldType :=
  [.first_name, .last_name, .full_name, .email, .phone, .address,
   .city, .state, .zip_code, .country,
   .linkedin, .github, .portfolio, .website,
   .resume, .cover_letter,
   .current_company, .current_title,
   .university, .highest_degree, .field_of_study,
   .years_of_experience, .graduation_year,
   .expected_salary, .salary_range_min, .salary_range_max,
   .start_date, .available_immediately,
   .authorized_to_work, .require_sponsorship, .visa_status,
   .willing_to_relocate, .how_did_you_hear]

/-- `FormFiller._save_unanswered_question`: EEO-typed fields and standard
profile fields are never saved; otherwise the question is saved through
`save_pending_question` with the explicit options if given (and non-empty),
else the field's own options. -/
def _save_unanswered_question (field : FormField) (options : Option (List String))
    (job_info now : String) (store : CustomStore) : CustomStore :=
  if is_eeo_field field.field_type then store
  else if standardProfileFields.contains field.field_type then store
  else
    let opts :=
      match options with
      | some o => if o.isEmpty then field.options else o
      | none => field.options
    (save_pending_question field.label opts job_info now store).2

/-- The `visa_values` token list of `_get_value_for_field`. -/
def visaValues : List String :=
  ["h1b", "h-1b", "opt", "f1", "f-1", "green card", "l1", "l-1", "tn", "o1", "o-1"]

/-- The authorization field types of the provenance check. -/
def visaFieldTypes : List FieldType := [.visa_status, .authorized_to_work, .require_sponsorship]

/-- The authorization label keywords of the provenance check. -/
def visaLabelKeywords : List String :=
  ["visa", "immigration", "sponsorship", "authorization", "work status"]

/-- The EEO label keywords of the provenance check (a list local to
`_get_value_for_field`, distinct from `EEO_KEYWORDS`). -/
def provenanceEeoKeywords : List String :=
  ["disability", "veteran", "gender", "race", "ethnicity", "hispanic",
   "do not want to answer", "decline", "prefer not", "self-identify"]

/-- Does the value contain a visa/authorization token? -/
def containsVisaToken (v : String) : Bool :=
  visaValues.any (fun t => pyIn t (pyLower v))

/-- Is the field type an authorization-domain type? -/
def isVisaFieldType (ft : FieldType) : Bool := visaFieldTypes.contains ft

/-- Does the label contain an authorization keyword? -/
def hasVisaLabelKeyword (label : String) : Bool :=
  visaLabelKeywords.any (fun t => pyIn t (pyLower label))

/-- Does the label contain one of the provenance-check EEO keywords? -/
def hasProvenanceEeoKeyword (label : String) : Bool :=
  provenanceEeoKeywords.any (fun t => pyIn t (pyLower label))

/-- The salary field types excluded from the salary-shaped-value check. -/
def salaryFieldTypes : List FieldType := [.expected_salary, .salary_range_min, .salary_range_max]

/-- The salary label keywords of the provenance check. -/
def salaryKeywords : List String := ["salary", "compensation", "pay", "wage"]

/-- Does the label contain a salary keyword? -/
def hasSalaryLabelKeyword (label : String) : Bool :=
  salaryKeywords.any (fun t => pyIn t (pyLower label))

/-- Decimal value of a digit list (Python `int` on an all-digit string). -/
def digitsToNat (l : List Char) : Nat := l.foldl (fun n c => n * 10 + (c.toNat - 48)) 0

/-- Does the value look like a salary once `,` and `$` are stripped:
non-empty, all digits, over 10000? -/
def salaryLike (v : String) : Bool :=
  let clean := v.toList.filter (fun c => !(c == ',') && !(c == '$'))
  !clean.isEmpty && clean.all isDigitCh && 10000 < digitsToNat clean

/-- The provenance validation block of `_get_value_for_field`: null out a
visa token on a non-authorization (or EEO-labelled) field without
authorization label keywords, then null out a salary-shaped value on a
non-salary field without salary label keywords. -/
def provenanceFilter (ft : FieldType) (label v : String) : Option String :=
  if containsVisaToken v && (!isVisaFieldType ft || hasProvenanceEeoKeyword label)
     && !hasVisaLabelKeyword label then none
  else if !(salaryFieldTypes.contains ft)
          && v.toList.any isDigitCh && (pyIn "," v || 5 < v.toList.length)
          && !hasSalaryLabelKeyword label && salaryLike v then none
  else some v

/-- The field types for which the LLM fallback is skipped. -/
def skipLlmTypes : List FieldType :=
  [.first_name, .last_name, .email, .phone, .address, .zip_code,
   .linkedin, .github, .portfolio, .website, .resume, .cover_letter]

/-- `FormFiller._get_value_for_field`.  `llmAnswer` is the oracle for the
generative backend: `none` models an unavailable helper or an empty/SKIP
answer.  The running `_file_input_count` is threaded explicitly. -/
def _get_value_for_field (p : Profile) (custom_answers : List CustomAnswer)
    (llmAnswer : Option String) (field : FormField) (fileInputCount : Nat) :
    String × Nat :=
  let value0 := p.get_field_value field.field_type
  let value1 : Option String :=
    if pyTruthy value0 then provenanceFilter field.field_type field.label (value0.getD "")
    else value0
  if pyTruthy value1 then (value1.getD "", fileInputCount)
  else if field.field_type = FieldType.how_did_you_hear then
    (dictGet p.default_answers "how_did_you_hear", fileInputCount)
  else
    let custom :=
      if custom_answers.isEmpty then none
      else find_custom_answer field.label field.options custom_answers
    if pyTruthy custom then (custom.getD "", fileInputCount)
    else if field.input_type == "file" then
      let ll := pyLower field.label
      let nl := pyLower field.name
      let is_cover_letter :=
        pyIn "cover" ll || pyIn "letter" ll || pyIn "cover" nl || pyIn "letter" nl
      let is_resume :=
        pyIn "resume" ll || pyIn "cv" ll || pyIn "resume" nl || pyIn "cv" nl
      if is_cover_letter then
        (if pyTruthy (p.get_field_value .cover_letter) then
           (p.get_field_value .cover_letter).getD ""
         else "", fileInputCount)
      else if is_resume && (p.resume.resolved_path).isSome then
        ((p.resume.resolved_path).getD "", fileInputCount)
      else
        let fc := fileInputCount + 1
        if fc = 1 then
          match p.resume.resolved_path with
          | some s => (s, fc)
          | none => ("", fc)
        else ("", fc)
    else if !(skipLlmTypes.contains field.field_type) then
      match llmAnswer with
      | some a => (if a != "" then a else "", fileInputCount)
      | none => ("", fileInputCount)
    else ("", fileInputCount)

/-- The strategy `_fill_by_type` dispatches a field to. -/
inductive FillRoute : Type where
  | fileRoute | eeoSelect | plainSelect | checkboxRoute | eeoRadio | plainRadio | textRoute
deriving DecidableEq, Repr

/-- `FormFiller._fill_by_type` routing: selects and radios go to the safe
EEO strategies exactly when the field type is an EEO type or the label
contains an EEO keyword. -/
def _fill_by_type_route (field : FormField) : FillRoute :=
  let is_eeo := is_eeo_field field.field_type || is_eeo_keyword_in_text field.label
  if field.input_type == "file" then .fileRoute
  else if field.input_type == "select" then (if is_eeo then .eeoSelect else .plainSelect)
  else if field.input_type == "checkbox" then .checkboxRoute
  else if field.input_type == "radio" then (if is_eeo then .eeoRadio else .plainRadio)
  else .textRoute

/-- Python `\b{v}\b` boundary test between an optional left and right
context character: exactly one side is a word character. -/
def boundaryDiff (a b : Option Char) : Bool :=
  (match a with | none => false | some c => isWordCh c)
    != (match b with | none => false | some c => isWordCh c)

/-- Does `\b v \b` (with `v` a literal) match the list at this position,
given the previous character? -/
def wbAt (v s : List Char) (prev : Option Char) : Bool :=
  startsWithL v s && boundaryDiff prev v.head? &&
  boundaryDiff v.getLast? ((s.drop v.length).head?)

/-- Scan helper for `wordBoundarySearch`. -/
def wordBoundaryAux (v : List Char) : Option Char → List Char → Bool
  | prev, [] => wbAt v [] prev
  | prev, c :: cs => wbAt v (c :: cs) prev || wordBoundaryAux v (some c) cs

/-- `re.search(rf"\b{re.escape(v)}\b", s) is not None` for a literal `v`. -/
def wordBoundarySearch (v s : String) : Bool :=
  wordBoundaryAux v.toList none s.toList

/-- The option score of `_fill_eeo_text_dropdown` (inputs already lowercased;
the value is additionally stripped by the caller). -/
def eeoOptionScore (value_lower opt_lower : String) : Int :=
  if opt_lower == value_lower then 100
  else if pyStartsWith opt_lower value_lower then 80
  else if pyIn (" " ++ value_lower) (" " ++ opt_lower)
          || pyStartsWith opt_lower (value_lower ++ ",") then 70
  else if value_lower == "yes" && pyStartsWith opt_lower "yes" then 75
  else if value_lower == "no" && pyStartsWith opt_lower "no" then 75
  else if pyIn value_lower opt_lower then
    (if wordBoundarySearch value_lower opt_lower then 50 else 0)
  else 0

/-- The decline phrases of the `_fill_eeo_text_dropdown` fallback loop. -/
def eeoDeclinePhrases : List String := ["decline", "prefer not", "don't wish", "choose not"]

/-- Best visible option by the EEO dropdown score (initial best score −1,
first strict maximum wins). -/
def eeoBestOption (value_lower : String) (visible : List String) : Option String × Int :=
  visible.foldl
    (fun best opt =>
      let score := eeoOptionScore value_lower (pyLower opt)
      if best.2 < score then (some opt, score) else best)
    (none, -1)

/-- `FormFiller._fill_eeo_text_dropdown`, as a decision on the visible
option texts: empty values are rejected; a positively scored best option
is clicked (success); else the first visible decline option is clicked
(success); else, when options were visible, the question is saved as
pending and the fill fails.  Clicks are assumed to succeed. -/
def _fill_eeo_text_dropdown (field : FormField) (value : String)
    (visibleOptions : List String) (job_info now : String) (store : CustomStore) :
    Bool × CustomStore :=
  let value_lower := pyStrip (pyLower value)
  if value_lower == "" then (false, store)
  else if 0 < (eeoBestOption value_lower visibleOptions).2 then (true, store)
  else if visibleOptions.any (fun opt => eeoDeclinePhrases.any (fun d => pyIn d (pyLower opt))) then
    (true, store)
  else if !visibleOptions.isEmpty then
    (false, _save_unanswered_question field (some visibleOptions) job_info now store)
  else (false, store)

/-- The unresolved-value branch of `FormFiller.fill_field` (lines 689-697):
when resolution yields no value and the type is known, the question is
routed through `_save_unanswered_question` and the field is reported as an
unsuccessful `FilledField` — no exception.  `none` means the branch is not
taken and interactive filling proceeds. -/
def fill_field_unresolved (p : Profile) (custom_answers : List CustomAnswer)
    (llmAnswer : Option String) (field : FormField) (fileInputCount : Nat)
    (job_info now : String) (store : CustomStore) :
    Option (FilledField × CustomStore) :=
  let v := (_get_value_for_field p custom_answers llmAnswer field fileInputCount).1
  if v == "" && !(field.field_type == FieldType.unknown) then
    some ({ field := field, filled_value := "", success := false,
            is_high_risk := is_high_risk_field field.field_type },
          _save_unanswered_question field none job_info now store)
  else none

/-- The dropdown condition of the First-Name verification in
`fill_all_fields`: country/city/state types or such label keywords. -/
def restoreDropdownTrigger (field : FormField) : Bool :=
  [FieldType.country, FieldType.city, FieldType.state].contains field.field_type ||
  ["country", "location", "city"].any (fun kw => pyIn kw (pyLower field.label))

/-- The First-Name guard run in the main pass after filling `field`:
the recorded value is rewritten only when a First Name was tracked, the
just-filled field is not the First Name itself, the field is a
location-dropdown-like field, and the live value drifted. -/
def mainPassFirstNameRestore (field : FormField) (tracked : Bool)
    (live recorded : String) : String :=
  if tracked && !(field.field_type == FieldType.first_name)
     && restoreDropdownTrigger field then
    (if live != recorded then recorded else live)
  else live

/-- The First-Name guard run in `_fill_dynamic_fields` after every dynamic
field: restore whenever a First Name was tracked and the live value drifted. -/
def dynamicPassFirstNameRestore (tracked : Bool) (live recorded : String) : String :=
  if tracked && live != recorded then recorded else live

/-! ### `_fill_dynamic_fields`: the dynamic-field reconciler -/

/-- One element of the accumulated `results` list. -/
structure DynResult where
  field : FormField
  success : Bool
deriving DecidableEq

/-- The reconciler's tracking state: the results so far and the
`filled_labels` dictionary. -/
structure DynState where
  results : List DynResult := []
  labels : List (String × Bool) := []
deriving DecidableEq

/-- The `(label, semantic type)` key `f"{label}_{type.value}"`. -/
def fieldKey (f : FormField) : String := f.label ++ "_" ++ f.field_type.value

/-- Dictionary lookup in `filled_labels`. -/
def labelsLookup (ls : List (String × Bool)) (k : String) : Option Bool :=
  ((ls.find? (fun kv => kv.1 == k)).map (fun kv => kv.2))

/-- Dictionary assignment in `filled_labels`. -/
def labelsSet : List (String × Bool) → String → Bool → List (String × Bool)
  | [], k, v => [(k, v)]
  | kv :: rest, k, v => if kv.1 == k then (k, v) :: rest else kv :: labelsSet rest k v

/-- The newness test of `_fill_dynamic_fields` line 2087: the selector is
unseen among the results and the `(label, type)` key is unmarked. -/
def isNewFieldB (st : DynState) (f : FormField) : Bool :=
  !(st.results.any (fun r => r.field.selector == f.selector)) &&
  (labelsLookup st.labels (fieldKey f)).isNone

/-- The skip applied to both first-pass and dynamic fields: unknown-typed,
non-required controls are not filled. -/
def firstPassEligible (f : FormField) : Bool :=
  !(f.field_type == FieldType.unknown && !f.is_required)

/-- The `dynamic_fields` selected in one pass. -/
def selectDynamicFields (st : DynState) (snapshot : List FormField) : List FormField :=
  snapshot.filter (fun f => isNewFieldB st f && firstPassEligible f)

/-- Fill the selected dynamic fields through the `fill_field` oracle,
updating results and `filled_labels` as the source does. -/
def fillDynamicList (oracle : FormField → Bool) :
    List FormField → DynState → DynState
  | [], st => st
  | f :: rest, st =>
    if labelsLookup st.labels (fieldKey f) == some true then fillDynamicList oracle rest st
    else
      fillDynamicList oracle rest
        { results := st.results ++ [⟨f, oracle f⟩]
          labels :=
            if oracle f then labelsSet st.labels (fieldKey f) true
            else if (labelsLookup st.labels (fieldKey f)).isNone then
              st.labels ++ [(fieldKey f, false)]
            else st.labels }

/-- The pass loop of `_fill_dynamic_fields`; `extract` is the per-pass
re-extraction oracle, the returned `Nat` counts executed
extract-and-reconcile passes. -/
def dynGo (oracle : FormField → Bool) (extract : Nat → List FormField) :
    Nat → Nat → DynState → DynState × Nat
  | 0, _, st => (st, 0)
  | fuel + 1, passIdx, st =>
    let dyn := selectDynamicFields st (extract passIdx)
    if dyn.isEmpty then (st, 1)
    else
      let r := dynGo oracle extract fuel (passIdx + 1) (fillDynamicList oracle dyn st)
      (r.1, r.2 + 1)

/-- `FormFiller._fill_dynamic_fields` with its default `max_passes = 2`. -/
def _fill_dynamic_fields (oracle : FormField → Bool) (extract : Nat → List FormField)
    (st : DynState) : DynState × Nat :=
  dynGo oracle extract 2 0 st

/-! ## Concrete instances used in the theorems below -/

/-- A text control whose label carries the EEO keyword `sex` but which the
classifier types as `unknown` (no catalog pattern matches `sex`). -/
def sexEeoKeywordField : FormField :=
  { field_type := .unknown
    label := "Sex"
    name := "sex"
    input_type := "text"
    is_required := true
    selector := "sel-sex" }

/-- A gender select field (EEO type). -/
def genderSelectFieldC1 : FormField :=
  { field_type := .gender
    label := "Gender"
    name := "gender"
    input_type := "select"
    options := ["Male", "Female", "Decline to answer"] }

/-- A profile whose work authorization is an H-1B visa. -/
def h1bProfile : Profile := { work_authorization := { visa_status := "H-1B" } }

/-- A disability-status control that the classifier resolved to the
authorization domain through its `visa` name attribute, so that profile
lookup yields the visa token on an EEO-labelled field. -/
def disabilityVisaField : FormField :=
  { field_type := .visa_status
    label := "Do you have a disability?"
    name := "visa"
    input_type := "select"
    options := ["Yes", "No", "I do not wish to answer"] }

/-- A high-risk (authorization) select with no EEO keyword in its label. -/
def authorizedSelectField : FormField :=
  { field_type := .authorized_to_work
    label := "Are you legally authorized to work in the United States?"
    input_type := "select"
    options := ["Yes", "No"] }

/-- A gender select field (EEO type), used for the C4 witness. -/
def genderSelectFieldC4 : FormField :=
  { field_type := .gender
    label := "Gender"
    input_type := "select"
    options := ["Male", "Female"] }

/-- The stored custom answer of the spec's Acme example. -/
def acmeStoredAnswer : CustomAnswer :=
  { question := "Have you ever worked at Acme Corp?"
    answer := "No" }

/-- The new Acme question of the spec's example. -/
def acmeNewQuestion : String := "Have you ever been employed by Acme Corp?"

/-- A current-title select with no profile data behind it. -/
def currentTitleFieldC7 : FormField :=
  { field_type := .current_title
    label := "Current Title"
    input_type := "select"
    options := ["Engineer", "Manager"] }

/-- An unknown-typed, non-required text control with a fresh locator. -/
def unknownDynFieldC8 : FormField :=
  { field_type := .unknown
    label := "Mystery"
    selector := "sel-u" }

/-- An eligible github field appearing in the second reconciliation pass. -/
def githubDynFieldC8 : FormField :=
  { field_type := .github
    label := "GitHub"
    selector := "sel-g" }

/-- The extraction oracle of the C8 counterexample: pass 0 shows only the
unknown non-required control, pass 1 would show the github field. -/
def extractC8 : Nat → List FormField :=
  fun p => if p = 0 then [unknownDynFieldC8] else [githubDynFieldC8]

/-- An email field, filled right after First Name in the C9 counterexample. -/
def emailFieldC9 : FormField :=
  { field_type := .email
    label := "Email" }

/-- A country field, which does trigger the First-Name verification. -/
def countryFieldC9 : FormField :=
  { field_type := .country
    label := "Country"
    input_type := "select" }

/-- A store that already holds a pending question. -/
def storeWithColorPending : CustomStore :=
  { pending := [{ question := "favorite color" }] }

end Hermes

namespace Hermes

/-! ## Theorems -/

/-- C1 (counterexample): a field whose label contains the EEO keyword
`sex` but whose semantic type is `unknown` does get recorded as a
PendingQuestion when the custom-dropdown fallback finds visible options it
cannot match, contradicting the claim that EEO-keyword fields are never
written to PendingQuestion. -/
theorem C1_counterexample :
    is_eeo_keyword_in_text "Sex" = true ∧
    ((_fill_eeo_text_dropdown sexEeoKeywordField "male" ["Red", "Blue"]
        "Acme - Engineer" "t0" ⟨[], []⟩).2).pending =
      [{ question := "Sex"
         options := some ["Red", "Blue"]
         answer := ""
         encountered_at := "t0"
         job := "Acme - Engineer" }] := by
  decide

/-- C1 (amended): a field whose semantic *type* is an EEO type is never
written to PendingQuestion — `_save_unanswered_question`, the single gate
in front of `save_pending_question`, returns the store unchanged for every
EEO-typed field, whatever the fill outcome; fields that merely carry an
EEO keyword in their label but classify as `unknown` are not protected. -/
theorem C1_eeo_type_never_pending (field : FormField) (options : Option (List String))
    (job_info now : String) (store : CustomStore)
    (h : is_eeo_field field.field_type = true) :
    _save_unanswered_question field options job_info now store = store := by
  unfold _save_unanswered_question
  simp [h]

/-- C1 witness: the EEO-typed gender select leaves the store untouched. -/
theorem C1_witness :
    _save_unanswered_question genderSelectFieldC1 none "Acme - Engineer" "t0" ⟨[], []⟩ =
      ⟨[], []⟩ :=
  C1_eeo_type_never_pending genderSelectFieldC1 none "Acme - Engineer" "t0" ⟨[], []⟩
    (by decide)

/-- C4 (counterexample): a high-risk authorization select with no EEO
keyword in its label is routed to the plain select strategy, not the safe
EEO variant, contradicting the claim that all high-risk select/radio
fills route through the safe variant. -/
theorem C4_counterexample :
    is_high_risk_field authorizedSelectField.field_type = true ∧
    authorizedSelectField.input_type = "select" ∧
    _fill_by_type_route authorizedSelectField = FillRoute.plainSelect ∧
    FillRoute.plainSelect ≠ FillRoute.eeoSelect := by
  decide

/-- C4 (amended): a select or radio field is routed to the safe EEO
variant exactly when its semantic type is an EEO type or its label
contains an EEO keyword; other high-risk select/radio fields (work
authorization, sponsorship, visa status, salary) take the plain
strategies. -/
theorem C4_amended (field : FormField) :
    (field.input_type = "select" →
      (_fill_by_type_route field = FillRoute.eeoSelect ↔
        (is_eeo_field field.field_type || is_eeo_keyword_in_text field.label) = true)) ∧
    (field.input_type = "radio" →
      (_fill_by_type_route field = FillRoute.eeoRadio ↔
        (is_eeo_field field.field_type || is_eeo_keyword_in_text field.label) = true)) := by
  constructor
  · intro hsel
    unfold _fill_by_type_route
    rw [hsel]
    cases h : (is_eeo_field field.field_type || is_eeo_keyword_in_text field.label) <;>
      simp [h]
  · intro hrad
    unfold _fill_by_type_route
    rw [hrad]
    cases h : (is_eeo_field field.field_type || is_eeo_keyword_in_text field.label) <;>
      simp [h]

/-- C4 witness: the gender select is routed to the safe EEO variant. -/
theorem C4_witness :
    _fill_by_type_route genderSelectFieldC4 = FillRoute.eeoSelect :=
  ((C4_amended genderSelectFieldC4).1 rfl).mpr (by decide)

/-- C9 (counterexample): after a successful First-Name fill, filling an
email field that clears the First Name does not trigger a restore in the
main pass — the live value stays cleared — contradicting the claim that
the check runs after filling any field. -/
theorem C9_counterexample :
    emailFieldC9.field_type ≠ FieldType.first_name ∧
    ("" : String) ≠ "John" ∧
    mainPassFirstNameRestore emailFieldC9 true "" "John" = "" := by
  decide

/-- C9 (amended): only the First Name is tracked, and in the main pass its
recorded value is rewritten only after filling a country/city/state-like
dropdown field whose fill drifted it; in the dynamic passes the rewrite
happens after every field. -/
theorem C9_amended :
    (∀ (field : FormField) (live recorded : String),
      restoreDropdownTrigger field = true →
      field.field_type ≠ FieldType.first_name →
      live ≠ recorded →
      mainPassFirstNameRestore field true live recorded = recorded) ∧
    (∀ live recorded : String, live ≠ recorded →
      dynamicPassFirstNameRestore true live recorded = recorded) := by
  constructor
  · intro field live recorded hdrop hft hne
    unfold mainPassFirstNameRestore
    simp [hdrop, hft, hne]
  · intro live recorded hne
    unfold dynamicPassFirstNameRestore
    simp [hne]

/-- C9 witness: a drifted First Name is restored after a country dropdown
in the main pass, and after any field in the dynamic pass. -/
theorem C9_witness :
    mainPassFirstNameRestore countryFieldC9 true "" "John" = "John" ∧
    dynamicPassFirstNameRestore true "" "John" = "John" :=
  ⟨C9_amended.1 countryFieldC9 "" "John" (by decide) (by decide) (by decide),
   C9_amended.2 "" "John" (by decide)⟩

/-- C10: saving a pending question whose normalized text already occurs in
the answered or pending lists returns `False` and leaves the store
unchanged; otherwise exactly one pending entry is appended, with an empty
answer and with the options recorded only when non-empty. -/
theorem C10_save_pending (question : String) (options : List String)
    (job_info now : String) (store : CustomStore) :
    ((store.answered.any
        (fun item => _normalize_question item.question == _normalize_question question)
      || store.pending.any
        (fun item => _normalize_question item.question == _normalize_question question)) = true →
      save_pending_question question options job_info now store = (false, store)) ∧
    ((store.answered.any
        (fun item => _normalize_question item.question == _normalize_question question)
      || store.pending.any
        (fun item => _normalize_question item.question == _normalize_question question)) = false →
      save_pending_question question options job_info now store =
        (true, { store with
                 pending := store.pending ++
                   [{ question := question
                      options := if options.isEmpty then none else some options
                      answer := ""
                      encountered_at := now
                      job := job_info }] })) := by
  constructor
  · intro h
    unfold save_pending_question
    rcases Bool.or_eq_true_iff.mp h with ha | hp
    · simp [ha]
    · cases hb : store.answered.any
        (fun item => _normalize_question item.question == _normalize_question question) <;>
        simp [hb, hp]
  · intro h
    have ha := (Bool.or_eq_false_iff.mp h).1
    have hp := (Bool.or_eq_false_iff.mp h).2
    unfold save_pending_question
    simp [ha, hp]

/-- C10 witness: a normalized duplicate of an already-pending question is
refused and the store kept, while a fresh question is appended as a single
pending entry without an options key. -/
theorem C10_witness :
    save_pending_question "Favorite COLOR??" [] "job" "t1" storeWithColorPending =
      (false, storeWithColorPending) ∧
    save_pending_question "Shirt size?" [] "job" "t1" ⟨[], []⟩ =
      (true, ⟨[], [{ question := "Shirt size?"
                     options := none
                     answer := ""
                     encountered_at := "t1"
                     job := "job" }]⟩) :=
  ⟨(C10_save_pending "Favorite COLOR??" [] "job" "t1" storeWithColorPending).1 (by decide),
   (C10_save_pending "Shirt size?" [] "job" "t1" ⟨[], []⟩).2 (by decide)⟩

/-- C6 (counterexample): with the single stored answer for the Acme
worked-at question and no options, the fuzzy matcher does not return
`"No"` for the employed-by phrasing. -/
theorem C6_counterexample :
    find_custom_answer acmeNewQuestion [] [acmeStoredAnswer] ≠ some "No" := by
  decide

/-- C6 (amended): the stored question's keywords (`worked at`,
`ever worked`) do not overlap the new question's keywords
(`employed by`), so the candidate scores 0 < 30 and the fuzzy matcher
returns no answer for the employed-by phrasing. -/
theorem C6_amended :
    _extract_keywords acmeStoredAnswer.question = ["worked at", "ever worked"] ∧
    _extract_keywords acmeNewQuestion = ["employed by"] ∧
    caScore acmeNewQuestion [] acmeStoredAnswer = 0 ∧
    find_custom_answer acmeNewQuestion [] [acmeStoredAnswer] = none := by
  decide

/-- C7 (counterexample): an unresolved current-title select (known,
non-EEO type) is marked unsuccessful but no PendingQuestion is recorded —
its type is in the standard profile-backed set that
`_save_unanswered_question` refuses to save — contradicting the claim
that every unresolved non-unknown non-EEO field is recorded. -/
theorem C7_counterexample :
    is_eeo_field currentTitleFieldC7.field_type = false ∧
    currentTitleFieldC7.field_type ≠ FieldType.unknown ∧
    fill_field_unresolved {} [] none currentTitleFieldC7 0 "job" "t0" ⟨[], []⟩ =
      some ({ field := currentTitleFieldC7
              filled_value := ""
              success := false
              is_high_risk := false },
            ⟨[], []⟩) := by
  decide

/-- The first component of the classifier fold is the initial type or one
of the folded patterns' types. -/
theorem foldl_matchStep_fst_mem (label name id_attr placeholder : String) :
    ∀ (l : List FieldPattern) (init : FieldType × ℚ),
      (l.foldl (matchStep label name id_attr placeholder) init).1 = init.1 ∨
      (l.foldl (matchStep label name id_attr placeholder) init).1 ∈
        l.map (fun p => p.field_type) := by
  intro l
  induction l with
  | nil => intro init; exact Or.inl rfl
  | cons p t ih =>
    intro init
    rw [List.foldl_cons, List.map_cons]
    have hstep : matchStep label name id_attr placeholder init p =
        (p.field_type, patternScore p label name id_attr placeholder) ∨
        matchStep label name id_attr placeholder init p = init := by
      unfold matchStep
      split
      · exact Or.inl rfl
      · exact Or.inr rfl
    rcases hstep with he | he
    · rw [he]
      rcases ih (p.field_type, patternScore p label name id_attr placeholder) with h | h
      · right
        rw [h]
        exact List.mem_cons_self _ _
      · exact Or.inr (List.mem_cons_of_mem _ h)
    · rw [he]
      rcases ih init with h | h
      · exact Or.inl h
      · exact Or.inr (List.mem_cons_of_mem _ h)

/-- Every field type produced by a catalog pattern is an EEO type or a
standard profile-backed type. -/
theorem catalog_types_standard_or_eeo :
    ∀ ft ∈ FIELD_PATTERNS.map (fun p => p.field_type),
      (is_eeo_field ft || standardProfileFields.contains ft) = true := by
  decide

/-- C7 (amended): an unresolved field of known type is reported as an
unsuccessful `FilledField` (never an error) and routed through
`_save_unanswered_question` with its own options and the job context; that
gate skips every EEO-typed or standard profile-backed type, and the
classifier only ever produces such types (or `unknown`), so this path
records no PendingQuestion for classifier-typed fields. -/
theorem C7_amended :
    (∀ (p : Profile) (ca : List CustomAnswer) (llm : Option String) (field : FormField)
        (fc : Nat) (job_info now : String) (store : CustomStore),
      (_get_value_for_field p ca llm field fc).1 = "" →
      field.field_type ≠ FieldType.unknown →
      fill_field_unresolved p ca llm field fc job_info now store =
        some ({ field := field
                filled_value := ""
                success := false
                is_high_risk := is_high_risk_field field.field_type },
              _save_unanswered_question field none job_info now store)) ∧
    (∀ (field : FormField) (options : Option (List String)) (job_info now : String)
        (store : CustomStore),
      (is_eeo_field field.field_type || standardProfileFields.contains field.field_type) = true →
      _save_unanswered_question field options job_info now store = store) ∧
    (∀ label name id_attr placeholder aria : String,
      (_match_field_type label name id_attr placeholder aria).1 ≠ FieldType.unknown →
      (is_eeo_field (_match_field_type label name id_attr placeholder aria).1 ||
        standardProfileFields.contains
          (_match_field_type label name id_attr placeholder aria).1) = true) := by
  refine ⟨?_, ?_, ?_⟩
  · intro p ca llm field fc job_info now store hv hft
    unfold fill_field_unresolved
    simp [hv, hft]
  · intro field options job_info now store h
    unfold _save_unanswered_question
    rcases Bool.or_eq_true_iff.mp h with he | hs
    · simp [he]
    · have hmem : field.field_type ∈ standardProfileFields := by simpa using hs
      by_cases heeo : is_eeo_field field.field_type = true
      · simp [heeo]
      · simp [heeo, hmem]
  · intro label name id_attr placeholder aria hne
    rcases foldl_matchStep_fst_mem label name id_attr placeholder FIELD_PATTERNS
        (FieldType.unknown, 0) with h | h
    · exact absurd h hne
    · exact catalog_types_standard_or_eeo _ h

set_option maxRecDepth 40000 in
/-- C7 witness: the concrete unresolved current-title select takes the
unsuccessful-branch, and the github classification lands in the
standard-or-EEO set. -/
theorem C7_witness :
    fill_field_unresolved {} [] none currentTitleFieldC7 0 "job" "t0" ⟨[], []⟩ =
      some ({ field := currentTitleFieldC7
              filled_value := ""
              success := false
              is_high_risk := is_high_risk_field currentTitleFieldC7.field_type },
            _save_unanswered_question currentTitleFieldC7 none "job" "t0" ⟨[], []⟩) ∧
    (is_eeo_field (_match_field_type "github" "" "" "" "").1 ||
      standardProfileFields.contains (_match_field_type "github" "" "" "" "").1) = true :=
  ⟨C7_amended.1 {} [] none currentTitleFieldC7 0 "job" "t0" ⟨[], []⟩ (by decide) (by decide),
   C7_amended.2.2 "github" "" "" "" "" (by decide)⟩

/-- C8 (counterexample): with pass 0 showing only a new unknown-typed,
non-required control and pass 1 a fresh fillable github field, the
reconciler breaks after pass 1 — which, per the claim's definition,
discovered one new field — so it does not stop only at a zero-new-field
pass and never reaches the second snapshot. -/
theorem C8_counterexample :
    isNewFieldB ⟨[], []⟩ unknownDynFieldC8 = true ∧
    unknownDynFieldC8 ∈ extractC8 0 ∧
    _fill_dynamic_fields (fun _ => true) extractC8 ⟨[], []⟩ = (⟨[], []⟩, 1) := by
  decide

/-- `filled_labels` lookup is unchanged by an assignment to another key. -/
theorem labelsLookup_set_ne (ls : List (String × Bool)) (k k' : String) (v : Bool)
    (h : k' ≠ k) : labelsLookup (labelsSet ls k v) k' = labelsLookup ls k' := by
  induction ls with
  | nil =>
    simp only [labelsSet, labelsLookup, List.find?]
    rw [show (k == k') = false from beq_eq_false_iff_ne.mpr (Ne.symm h)]
  | cons kv rest ih =>
    by_cases hk : kv.1 == k
    · simp only [labelsSet, hk, if_true, labelsLookup, List.find?]
      have h1 : (k == k') = false := beq_eq_false_iff_ne.mpr (Ne.symm h)
      have h2 : (kv.1 == k') = false := by
        rw [beq_eq_false_iff_ne]
        rw [show kv.1 = k from by exact beq_iff_eq.mp hk]
        exact Ne.symm h
      rw [h1, h2]
    · simp only [labelsSet, hk, if_false, labelsLookup, List.find?]
      cases hk' : kv.1 == k'
      · simpa [labelsLookup] using ih
      · rfl

/-- `filled_labels` lookup is unchanged by appending an entry for another key. -/
theorem labelsLookup_append_ne (ls : List (String × Bool)) (k k' : String) (b : Bool)
    (h : k' ≠ k) : labelsLookup (ls ++ [(k, b)]) k' = labelsLookup ls k' := by
  induction ls with
  | nil =>
    simp only [List.nil_append, labelsLookup, List.find?]
    rw [show (k == k') = false from beq_eq_false_iff_ne.mpr (Ne.symm h)]
  | cons kv rest ih =>
    simp only [List.cons_append, labelsLookup, List.find?]
    cases hk' : kv.1 == k'
    · simpa [labelsLookup] using ih
    · rfl

/-- Unfolding `fillDynamicList` on an unmarked head field. -/
theorem fillDynamicList_cons_notmarked (oracle : FormField → Bool) (f : FormField)
    (rest : List FormField) (st : DynState)
    (h : (labelsLookup st.labels (fieldKey f) == some true) = false) :
    fillDynamicList oracle (f :: rest) st =
      fillDynamicList oracle rest
        { results := st.results ++ [⟨f, oracle f⟩]
          labels :=
            if oracle f then labelsSet st.labels (fieldKey f) true
            else if (labelsLookup st.labels (fieldKey f)).isNone then
              st.labels ++ [(fieldKey f, false)]
            else st.labels } := by
  conv_lhs => rw [fillDynamicList]
  rw [h]
  simp

/-- A pass count of `dynGo` never exceeds its fuel. -/
theorem dynGo_count_le (oracle : FormField → Bool) (extract : Nat → List FormField) :
    ∀ (fuel passIdx : Nat) (st : DynState),
      (dynGo oracle extract fuel passIdx st).2 ≤ fuel := by
  intro fuel
  induction fuel with
  | zero => intro passIdx st; exact Nat.le_refl 0
  | succ n ih =>
    intro passIdx st
    unfold dynGo
    by_cases hd : (selectDynamicFields st (extract passIdx)).isEmpty
    · simp only [hd, if_true]
      exact Nat.succ_le_succ (Nat.zero_le n)
    · simp only [hd, if_false]
      exact Nat.succ_le_succ (ih _ _)

/-- C8 (amended): the reconciler performs at most 2 extra passes; a field
enters a pass's dynamic list exactly when its locator is unseen, its
`(label, type)` key is unmarked, and it survives the same
unknown-and-not-required screen applied to first-pass fields; the selected
fields are filled through the same `fill_field` oracle in order; and the
loop stops at the first pass whose dynamic list (after that screen) is
empty. -/
theorem C8_amended :
    (∀ (oracle : FormField → Bool) (extract : Nat → List FormField) (st : DynState),
      (_fill_dynamic_fields oracle extract st).2 ≤ 2) ∧
    (∀ (st : DynState) (snapshot : List FormField) (f : FormField),
      f ∈ selectDynamicFields st snapshot ↔
        f ∈ snapshot ∧ isNewFieldB st f = true ∧ firstPassEligible f = true) ∧
    (∀ (oracle : FormField → Bool) (l : List FormField) (st : DynState),
      l.Pairwise (fun a b => fieldKey a ≠ fieldKey b) →
      (∀ f ∈ l, labelsLookup st.labels (fieldKey f) ≠ some true) →
      (fillDynamicList oracle l st).results =
        st.results ++ l.map (fun f => ⟨f, oracle f⟩)) ∧
    (∀ (oracle : FormField → Bool) (extract : Nat → List FormField) (st : DynState),
      selectDynamicFields st (extract 0) = [] →
      _fill_dynamic_fields oracle extract st = (st, 1)) := by
  refine ⟨?_, ?_, ?_, ?_⟩
  · intro oracle extract st
    exact dynGo_count_le oracle extract 2 0 st
  · intro st snapshot f
    simp [selectDynamicFields, List.mem_filter]
  · intro oracle l
    induction l with
    | nil => intro st _ _; simp [fillDynamicList]
    | cons f rest ih =>
      intro st hpw hmk
      have hf : labelsLookup st.labels (fieldKey f) ≠ some true :=
        hmk f (List.mem_cons_self _ _)
      have hfb : (labelsLookup st.labels (fieldKey f) == some true) = false :=
        beq_eq_false_iff_ne.mpr hf
      rw [fillDynamicList_cons_notmarked oracle f rest st hfb]
      have hkeys : ∀ g ∈ rest, fieldKey g ≠ fieldKey f := by
        intro g hg
        exact Ne.symm ((List.pairwise_cons.mp hpw).1 g hg)
      have hlab' : ∀ g ∈ rest,
          labelsLookup
            (if oracle f then labelsSet st.labels (fieldKey f) true
             else if (labelsLookup st.labels (fieldKey f)).isNone then
               st.labels ++ [(fieldKey f, false)]
             else st.labels) (fieldKey g) =
          labelsLookup st.labels (fieldKey g) := by
        intro g hg
        by_cases ho : oracle f
        · rw [if_pos ho]
          exact labelsLookup_set_ne st.labels (fieldKey f) (fieldKey g) true (hkeys g hg)
        · rw [if_neg ho]
          by_cases hn : (labelsLookup st.labels (fieldKey f)).isNone
          · rw [if_pos hn]
            exact labelsLookup_append_ne st.labels (fieldKey f) (fieldKey g) false (hkeys g hg)
          · rw [if_neg hn]
      rw [ih _ (List.pairwise_cons.mp hpw).2
            (fun g hg => (hlab' g hg) ▸ hmk g (List.mem_cons_of_mem _ hg))]
      simp
  · intro oracle extract st hsel
    unfold _fill_dynamic_fields dynGo
    rw [hsel]
    rfl

/-- C8 witness: the amended reconciler facts at concrete inputs — the pass
bound, a one-field fill through the oracle, and the early stop on an empty
first selection. -/
theorem C8_witness :
    (_fill_dynamic_fields (fun _ => true) (fun _ => []) ⟨[], []⟩).2 ≤ 2 ∧
    (fillDynamicList (fun _ => true) [githubDynFieldC8] ⟨[], []⟩).results =
      [] ++ [githubDynFieldC8].map (fun f => ⟨f, true⟩) ∧
    _fill_dynamic_fields (fun _ => true) (fun _ => []) ⟨[], []⟩ = (⟨[], []⟩, 1) :=
  ⟨C8_amended.1 (fun _ => true) (fun _ => []) ⟨[], []⟩,
   C8_amended.2.2.1 (fun _ => true) [githubDynFieldC8] ⟨[], []⟩ (by simp) (by decide),
   C8_amended.2.2.2 (fun _ => true) (fun _ => []) ⟨[], []⟩ rfl⟩

/-- A label match alone pins the pattern score at 0.9, whatever the other
signals add. -/
theorem patternScore_of_label (p : FieldPattern) (label name id_attr placeholder : String)
    (h : labelAnyMatch p label = true) :
    patternScore p label name id_attr placeholder = mkRat 9 10 := by
  have h9 : max (0 : ℚ) (mkRat 9 10) = mkRat 9 10 := by decide
  have h8 : max (mkRat 9 10) (mkRat 8 10) = mkRat 9 10 := by decide
  have h7 : max (mkRat 9 10) (mkRat 7 10) = mkRat 9 10 := by decide
  unfold patternScore
  rw [h]
  cases hn : nameAnyMatch p name id_attr <;>
    cases hp : placeholderAnyMatch p placeholder <;>
      simp [h9, h8, h7]

/-- A pattern that matches nothing scores 0. -/
theorem patternScore_of_nothing (p : FieldPattern) (label name id_attr placeholder : String)
    (h : patternMatchesNothing p label name id_attr placeholder = true) :
    patternScore p label name id_attr placeholder = 0 := by
  have h' := h
  simp only [patternMatchesNothing, Bool.and_eq_true, Bool.not_eq_true'] at h'
  obtain ⟨⟨hl, hn⟩, hp⟩ := h'
  simp [patternScore, hl, hn, hp]

/-- Folding patterns that all score 0 over a non-negative best leaves the
best unchanged. -/
theorem foldl_matchStep_zero (label name id_attr placeholder : String) :
    ∀ (l : List FieldPattern) (init : FieldType × ℚ),
      (∀ p ∈ l, patternScore p label name id_attr placeholder = 0) →
      0 ≤ init.2 →
      l.foldl (matchStep label name id_attr placeholder) init = init := by
  intro l
  induction l with
  | nil => intro init _ _; rfl
  | cons p t ih =>
    intro init hz h0
    rw [List.foldl_cons]
    have hs : matchStep label name id_attr placeholder init p = init := by
      unfold matchStep
      rw [hz p (List.mem_cons_self _ _)]
      rw [if_neg (not_lt.mpr h0)]
    rw [hs]
    exact ih init (fun q hq => hz q (List.mem_cons_of_mem _ hq)) h0

/-- When exactly one folded pattern scores 0.9 and all others score 0, the
fold returns that pattern's type at 0.9. -/
theorem foldl_matchStep_unique (label name id_attr placeholder : String) :
    ∀ (l : List FieldPattern) (i : Nat) (hi : i < l.length) (init : FieldType × ℚ),
      0 ≤ init.2 → init.2 < mkRat 9 10 →
      (∀ (j : Nat) (hj : j < l.length), j ≠ i →
        patternScore (l.get ⟨j, hj⟩) label name id_attr placeholder = 0) →
      patternScore (l.get ⟨i, hi⟩) label name id_attr placeholder = mkRat 9 10 →
      l.foldl (matchStep label name id_attr placeholder) init =
        ((l.get ⟨i, hi⟩).field_type, mkRat 9 10) := by
  intro l
  induction l with
  | nil => intro i hi; exact absurd hi (Nat.not_lt_zero i)
  | cons p t ih =>
    intro i hi init h0 h9 hz hscore
    rw [List.foldl_cons]
    cases i with
    | zero =>
      have hsp : patternScore p label name id_attr placeholder = mkRat 9 10 := hscore
      have hstep : matchStep label name id_attr placeholder init p =
          (p.field_type, mkRat 9 10) := by
        unfold matchStep
        rw [hsp, if_pos h9]
      rw [hstep]
      have hz' : ∀ q ∈ t, patternScore q label name id_attr placeholder = 0 := by
        intro q hq
        obtain ⟨⟨j, hj⟩, rfl⟩ := List.mem_iff_get.mp hq
        exact hz (j + 1) (Nat.succ_lt_succ hj) (Nat.succ_ne_zero j)
      exact foldl_matchStep_zero label name id_attr placeholder t
        (p.field_type, mkRat 9 10) hz' (show (0 : ℚ) ≤ mkRat 9 10 by decide)
    | succ k =>
      have hpz : patternScore p label name id_attr placeholder = 0 :=
        hz 0 (Nat.succ_pos _) (Nat.succ_ne_zero k).symm
      have hstep : matchStep label name id_attr placeholder init p = init := by
        unfold matchStep
        rw [hpz, if_neg (not_lt.mpr h0)]
      rw [hstep]
      exact ih k (Nat.lt_of_succ_lt_succ hi) init h0 h9
        (fun j hj hne =>
          hz (j + 1) (Nat.succ_lt_succ hj) (fun hc => hne (Nat.succ_injective hc)))
        hscore

/-- The second component of the classifier fold is the running maximum of
the pattern scores. -/
theorem foldl_matchStep_snd (label name id_attr placeholder : String) :
    ∀ (l : List FieldPattern) (init : FieldType × ℚ),
      (l.foldl (matchStep label name id_attr placeholder) init).2 =
        l.foldl (fun m p => max m (patternScore p label name id_attr placeholder)) init.2 := by
  intro l
  induction l with
  | nil => intro init; rfl
  | cons p t ih =>
    intro init
    rw [List.foldl_cons, List.foldl_cons, ih]
    congr 1
    unfold matchStep
    by_cases hc : init.2 < patternScore p label name id_attr placeholder
    · rw [if_pos hc]
      exact (max_eq_right (le_of_lt hc)).symm
    · rw [if_neg hc]
      exact (max_eq_left (not_lt.mp hc)).symm

/-- C2: the classifier is the pure fold of the catalog — when the label
matches some pattern's label regex and every other pattern matches none of
the inputs, it returns that pattern's type at confidence 0.9; when no
pattern matches anything it returns `(unknown, 0)`; and its confidence is
always the maximum pattern score (highest-scoring pattern wins). -/
theorem C2_classifier (label name id_attr placeholder aria : String) :
    (∀ (i : Nat) (hi : i < FIELD_PATTERNS.length),
      labelAnyMatch (FIELD_PATTERNS.get ⟨i, hi⟩) label = true →
      (∀ (j : Nat) (hj : j < FIELD_PATTERNS.length), j ≠ i →
        patternMatchesNothing (FIELD_PATTERNS.get ⟨j, hj⟩) label name id_attr placeholder
          = true) →
      _match_field_type label name id_attr placeholder aria =
        ((FIELD_PATTERNS.get ⟨i, hi⟩).field_type, mkRat 9 10)) ∧
    ((∀ (j : Nat) (hj : j < FIELD_PATTERNS.length),
        patternMatchesNothing (FIELD_PATTERNS.get ⟨j, hj⟩) label name id_attr placeholder
          = true) →
      _match_field_type label name id_attr placeholder aria = (FieldType.unknown, 0)) ∧
    (_match_field_type label name id_attr placeholder aria).2 =
      FIELD_PATTERNS.foldl
        (fun m p => max m (patternScore p label name id_attr placeholder)) 0 := by
  refine ⟨?_, ?_, ?_⟩
  · intro i hi hlab hother
    unfold _match_field_type
    exact foldl_matchStep_unique label name id_attr placeholder FIELD_PATTERNS i hi
      (FieldType.unknown, 0) (le_refl 0) (by decide)
      (fun j hj hne =>
        patternScore_of_nothing _ label name id_attr placeholder (hother j hj hne))
      (patternScore_of_label _ label name id_attr placeholder hlab)
  · intro hall
    unfold _match_field_type
    exact foldl_matchStep_zero label name id_attr placeholder FIELD_PATTERNS
      (FieldType.unknown, 0)
      (fun q hq => by
        obtain ⟨⟨j, hj⟩, rfl⟩ := List.mem_iff_get.mp hq
        exact patternScore_of_nothing _ label name id_attr placeholder (hall j hj))
      (le_refl 0)
  · exact foldl_matchStep_snd label name id_attr placeholder FIELD_PATTERNS
      (FieldType.unknown, 0)

set_option maxRecDepth 200000 in
/-- C2 witness: the label `github` matches only the github pattern's label
regex (no other pattern fires on any input), yielding `(github, 0.9)`, and
`zzz` matches nothing, yielding `(unknown, 0)`. -/
theorem C2_witness :
    _match_field_type "github" "" "" "" "" = (FieldType.github, mkRat 9 10) ∧
    _match_field_type "zzz" "" "" "" "" = (FieldType.unknown, 0) :=
  ⟨(C2_classifier "github" "" "" "" "").1 6 (by decide) (by decide) (by decide),
   (C2_classifier "zzz" "" "" "" "").2.1 (by decide)⟩

/-- C3: when the profile-resolved value carries a visa/authorization token
while the field is not an authorization-type field (or its label carries
the provenance-check EEO keywords) and the label has no authorization
keyword, the provenance check nulls the value; with no custom answers, no
generative helper, no referral default and a non-file control, the
resolver then returns no value at all (the referral-source default cannot
apply: that type never carries a profile value). -/
theorem C3_provenance_conflict (p : Profile) (field : FormField) (fileCount : Nat)
    (hval : pyTruthy (p.get_field_value field.field_type) = true)
    (htok : containsVisaToken ((p.get_field_value field.field_type).getD "") = true)
    (hdom : isVisaFieldType field.field_type = false ∨
      hasProvenanceEeoKeyword field.label = true)
    (hkw : hasVisaLabelKeyword field.label = false)
    (hfile : field.input_type ≠ "file") :
    (_get_value_for_field p [] none field fileCount).1 = "" := by
  have hfilter : provenanceFilter field.field_type field.label
      ((p.get_field_value field.field_type).getD "") = none := by
    unfold provenanceFilter
    rcases hdom with h | h
    · simp [htok, hkw, h]
    · simp [htok, hkw, h]
  have hfb : (field.input_type == "file") = false := beq_eq_false_iff_ne.mpr hfile
  by_cases hhow : field.field_type = FieldType.how_did_you_hear
  · exfalso
    rw [hhow] at hval
    simp [Profile.get_field_value, pyTruthy] at hval
  · simp only [_get_value_for_field]
    simp only [hval, eq_self_iff_true, if_true]
    rw [hfilter]
    simp [hhow, hfb, pyTruthy]

/-- C3 witness: with profile authorization `H-1B`, a disability-labelled
control resolved into the authorization domain gets its value discarded
and resolves to no value. -/
theorem C3_witness :
    (_get_value_for_field h1bProfile [] none disabilityVisaField 0).1 = "" :=
  C3_provenance_conflict h1bProfile disabilityVisaField 0 (by decide) (by decide)
    (Or.inr (by decide)) (by decide) (by decide)

/-- A fold of maxima never drops below its start. -/
theorem le_foldl_max_int (f : CustomAnswer → Int) :
    ∀ (l : List CustomAnswer) (s : Int), s ≤ l.foldl (fun m ca => max m (f ca)) s := by
  intro l
  induction l with
  | nil => intro s; exact le_refl s
  | cons ca t ih =>
    intro s
    rw [List.foldl_cons]
    exact le_trans (le_max_left s (f ca)) (ih (max s (f ca)))

/-- When a list holds an exact normalized match, the candidate loop
returns the first one's answer, whatever the accumulator. -/
theorem fcaGo_exact (question : String) (options : List String) :
    ∀ (l : List CustomAnswer) (best : Option String × Int) (ca0 : CustomAnswer),
      l.find? (fun ca =>
        _normalize_question ca.question == _normalize_question question) = some ca0 →
      fcaGo question options l best = some ca0.answer := by
  intro l
  induction l with
  | nil => intro best ca0 h; simp at h
  | cons ca t ih =>
    intro best ca0 h
    by_cases hx : _normalize_question ca.question = _normalize_question question
    · rw [List.find?_cons_of_pos _ (by simpa using hx)] at h
      cases h
      unfold fcaGo
      rw [if_pos hx]
    · rw [List.find?_cons_of_neg _ (by simpa using hx)] at h
      unfold fcaGo
      rw [if_neg hx]
      exact ih _ ca0 h

/-- The candidate loop on a list with no exact match: the result is the
answer of the first candidate attaining the maximum score when that
maximum reaches 30 (keeping the accumulator when nothing beats it), and
nothing otherwise. -/
theorem fcaGo_noexact (question : String) (options : List String) :
    ∀ (l : List CustomAnswer) (b : Option String) (s : Int),
      (∀ ca ∈ l, _normalize_question ca.question ≠ _normalize_question question) →
      fcaGo question options l (b, s) =
        (if 30 ≤ l.foldl (fun m ca => max m (caScore question options ca)) s then
          (if l.foldl (fun m ca => max m (caScore question options ca)) s = s then b
           else
             (l.find? (fun ca => caScore question options ca ==
                 l.foldl (fun m ca => max m (caScore question options ca)) s)).map
               (fun ca => ca.answer))
         else none) := by
  intro l
  induction l with
  | nil =>
    intro b s _
    simp [fcaGo]
  | cons ca t ih =>
    intro b s hne
    have hx : _normalize_question ca.question ≠ _normalize_question question :=
      hne ca (List.mem_cons_self _ _)
    have hcons : fcaGo question options (ca :: t) (b, s) =
        fcaGo question options t
          (if s < caScore question options ca then
            (some ca.answer, caScore question options ca)
          else (b, s)) := by
      conv_lhs => unfold fcaGo
      rw [if_neg hx]
    rw [hcons]
    simp only [List.foldl_cons]
    by_cases hlt : s < caScore question options ca
    · rw [if_pos hlt]
      rw [ih (some ca.answer) (caScore question options ca)
        (fun q hq => hne q (List.mem_cons_of_mem _ hq))]
      have hms : max s (caScore question options ca) = caScore question options ca :=
        max_eq_right (le_of_lt hlt)
      rw [hms]
      set M := t.foldl (fun m ca => max m (caScore question options ca))
        (caScore question options ca) with hM
      by_cases h30 : 30 ≤ M
      · rw [if_pos h30, if_pos h30]
        have hcM : caScore question options ca ≤ M := by
          rw [hM]
          exact le_foldl_max_int (fun ca => caScore question options ca) t _
        have hsM : s < M := lt_of_lt_of_le hlt hcM
        rw [if_neg (ne_of_gt hsM)]
        by_cases hbeq : (caScore question options ca == M) = true
        · rw [@List.find?_cons_of_pos _ (fun q => caScore question options q == M) ca t hbeq]
          rw [if_pos (beq_iff_eq.mp hbeq).symm]
          rfl
        · rw [@List.find?_cons_of_neg _ (fun q => caScore question options q == M) ca t
            (by simpa using hbeq)]
          rw [if_neg (fun hMc => hbeq (beq_iff_eq.mpr hMc.symm))]
      · rw [if_neg h30, if_neg h30]
    · rw [if_neg hlt]
      rw [ih b s (fun q hq => hne q (List.mem_cons_of_mem _ hq))]
      have hms : max s (caScore question options ca) = s :=
        max_eq_left (not_lt.mp hlt)
      rw [hms]
      set M := t.foldl (fun m ca => max m (caScore question options ca)) s with hM
      by_cases h30 : 30 ≤ M
      · rw [if_pos h30, if_pos h30]
        by_cases hMs : M = s
        · rw [if_pos hMs, if_pos hMs]
        · rw [if_neg hMs, if_neg hMs]
          have hsM : s < M := by
            rw [hM]
            exact lt_of_le_of_ne
              (le_foldl_max_int (fun ca => caScore question options ca) t s)
              (fun h => hMs (hM ▸ h.symm))
          have hcne : (caScore question options ca == M) = false := by
            rw [beq_eq_false_iff_ne]
            exact ne_of_lt (lt_of_le_of_lt (not_lt.mp hlt) hsM)
          rw [@List.find?_cons_of_neg _ (fun q => caScore question options q == M) ca t
            (by simp [hcne])]
      · rw [if_neg h30, if_neg h30]

/-- C5: the fuzzy matcher equals its specification — exact normalized
equality short-circuits to the stored answer, otherwise the (first)
best-scoring answer, with score = containment (+50) + 20 × shared
keywords + option compatibility (+10 / −20), is returned exactly when the
best score is at least 30. -/
theorem C5_fuzzy_matcher (question : String) (options : List String)
    (answered : List CustomAnswer) :
    find_custom_answer question options answered =
      specFuzzyMatch question options answered := by
  unfold find_custom_answer specFuzzyMatch specBestScore
  cases hfind : answered.find?
      (fun ca => _normalize_question ca.question == _normalize_question question) with
  | some ca0 =>
    have hne : answered.isEmpty = false := by
      cases answered
      · simp at hfind
      · rfl
    rw [hne]
    simp only [Bool.false_eq_true, if_false]
    exact fcaGo_exact question options answered (none, 0) ca0 hfind
  | none =>
    have hall : ∀ ca ∈ answered,
        _normalize_question ca.question ≠ _normalize_question question := by
      intro ca hca
      have h := List.find?_eq_none.mp hfind ca hca
      simpa using h
    cases hemp : answered.isEmpty
    · simp only [Bool.false_eq_true, if_false]
      rw [fcaGo_noexact question options answered none 0 hall]
      show (if 30 ≤ answered.foldl (fun m ca => max m (caScore question options ca)) 0 then
          (if answered.foldl (fun m ca => max m (caScore question options ca)) 0 = 0 then
            none
           else (answered.find? (fun ca => caScore question options ca ==
               answered.foldl (fun m ca => max m (caScore question options ca)) 0)).map
             (fun ca => ca.answer))
         else none) =
        (if 30 ≤ answered.foldl (fun m ca => max m (caScore question options ca)) 0 then
          (answered.find? (fun ca => caScore question options ca ==
              answered.foldl (fun m ca => max m (caScore question options ca)) 0)).map
            (fun ca => ca.answer)
         else none)
      by_cases h30 : 30 ≤ answered.foldl
          (fun m ca => max m (caScore question options ca)) 0
      · rw [if_pos h30, if_pos h30]
        have hM0 : answered.foldl
            (fun m ca => max m (caScore question options ca)) 0 ≠ 0 := by
          intro h0
          rw [h0] at h30
          exact absurd h30 (by decide)
        rw [if_neg hM0]
      · rw [if_neg h30, if_neg h30]
    · have hnil : answered = [] := by
        cases answered
        · rfl
        · simp at hemp
      subst hnil
      rfl

end Hermes



